import Mathlib

/-!
Shallow embedding of the order / OTP / rating / ticket logic of
src/backend/server.py (FastAPI + MongoDB e-commerce backend).

Conventions of the embedding:
- The MongoDB collections become Lean lists; documents become structures.
  find_one scans in insertion order (first match), insert_one appends,
  update_one / delete_one act on the first matching document.
- Python floats (prices, total amounts, rating averages) are modelled as
  exact rationals; no claim in scope depends on IEEE rounding.
- datetime values are modelled as PyDateTime: an integer instant together
  with an awareness flag, mirroring naive vs timezone-aware datetimes.
  Normalizing a naive datetime to UTC keeps the instant and sets the flag,
  exactly like replace with tzinfo utc on a naive UTC wall-clock value.
- A raised HTTPException becomes an error result paired with the database
  state at the raise point (mutations already performed are kept, since
  the server performs no rollback).
-/

deriving instance DecidableEq for Except

namespace Shop

/-- Python datetime: an instant (e.g. epoch seconds) plus tz-awareness. -/
structure PyDateTime where
  instant : Int
  aware : Bool
deriving DecidableEq, Repr

/-- Mirrors the defensive normalization in server.py: if a stored expiry
is naive, replace its tzinfo with UTC (the instant is unchanged because
naive values read back from the store are UTC wall-clock values). -/
def ensureAware (d : PyDateTime) : PyDateTime :=
  if d.aware then d else { d with aware := true }

/-- DeliveryAddress model (server.py, class DeliveryAddress). -/
structure DeliveryAddress where
  full_name : String
  phone_number : String
  street : String
  city : String
  state : String
  postal_code : String
  country : String
  pincode : Option String
deriving DecidableEq, Repr

/-- User document as stored in db.users (server.py, class User plus the
password hash and the OTP bookkeeping fields written by the auth routes). -/
structure UserRec where
  id : String
  name : String
  email : String
  role : String
  password_hash : String
  isVerified : Bool
  otp : Option String
  otpExpires : Option PyDateTime
  otpPurpose : Option String
  pendingNewPassword : Option String
  delivery_address : Option DeliveryAddress
deriving DecidableEq, Repr

/-- Product document (server.py, class Product). Stock is an Int: the
Python field is an unconstrained int. -/
structure Product where
  id : String
  name : String
  price : ℚ
  description : String
  category : String
  stock : Int
  images : List String
  average_rating : ℚ
  total_ratings : Nat
deriving DecidableEq, Repr

/-- Line item of an order (server.py, class OrderItem). quantity is an
unconstrained int in the source. -/
structure OrderItem where
  product_id : String
  name : String
  quantity : Int
  price : ℚ
  total : Option ℚ
deriving DecidableEq, Repr

/-- Client payload for order creation (server.py, class OrderCreate). -/
structure OrderCreate where
  products : List OrderItem
  total_amount : ℚ
deriving DecidableEq, Repr

/-- Order document as persisted by create_order / create_buy_now_order.
Those routes always set user_email, status, delivery_address and order_id,
so the fields are non-optional here. -/
structure Order where
  id : String
  products : List OrderItem
  total_amount : ℚ
  user_id : String
  user_email : String
  status : String
  delivery_address : DeliveryAddress
  order_id : String
deriving DecidableEq, Repr

/-- Rating document (server.py, class Rating). The pydantic validator
constrains the value to 1..5; we keep Nat and add the bound in theorems
that need it. -/
structure RatingRec where
  user_id : String
  product_id : String
  rating : Nat
deriving DecidableEq, Repr

/-- One message of a support-ticket thread (sender tag, text, timestamp). -/
structure TicketMsg where
  sender : String
  message : String
  timestamp : Int
deriving DecidableEq, Repr

/-- Support ticket document (server.py, class SupportTicket). -/
structure Ticket where
  id : String
  user_id : Option String
  status : String
  messages : List TicketMsg
deriving DecidableEq, Repr

/-- The mutable database state: the MongoDB collections used by the
claims in scope. -/
structure DB where
  users : List UserRec
  products : List Product
  orders : List Order
  ratings : List RatingRec
  tickets : List Ticket
deriving DecidableEq, Repr

/-- update_one semantics: rewrite the first document satisfying p. -/
def updateFirst (p : α → Bool) (f : α → α) : List α → List α
  | [] => []
  | x :: xs => if p x then f x :: xs else x :: updateFirst p f xs

/-! ### Sequential order-identifier generation (create_order lines 1192-1210) -/

/-- Decimal digits, least significant first; the first argument is fuel
bounding the recursion depth so the definition reduces in the kernel. -/
def natDigitsRevFuel : Nat → Nat → List Nat
  | 0, _ => []
  | fuel + 1, n => if n < 10 then [n] else n % 10 :: natDigitsRevFuel fuel (n / 10)

/-- Decimal digits of a natural number, least significant first. -/
def natDigitsRev (n : Nat) : List Nat := natDigitsRevFuel (n + 1) n

/-- Character for a decimal digit. -/
def digitChar (d : Nat) : Char := Char.ofNat (48 + d)

/-- Decimal string of a natural number. -/
def decStr (n : Nat) : String :=
  String.mk ((natDigitsRev n).reverse.map digitChar)

/-- Left-pad a string with a fill character to the given width. -/
def zeroPad (w : Nat) (s : String) : String :=
  String.mk (List.replicate (w - s.length) '0' ++ s.data)

/-- Python format spec 04d: zero-pad the decimal form to overall width 4,
the sign included for negatives, overflowing past 4 digits unchanged. -/
def format04 (n : Int) : String :=
  if n < 0 then "-" ++ zeroPad 3 (decStr n.natAbs) else zeroPad 4 (decStr n.toNat)

/-- Zero-padded 4-digit form of a natural number. -/
def pad4 (n : Nat) : String := zeroPad 4 (decStr n)

/-- Python int() applied to an order identifier string: optional sign then
decimal digits (the whitespace and underscore tolerance of int() is never
exercised by the identifiers this server writes). -/
def parseDigits : List Char → Nat → Option Nat
  | [], acc => some acc
  | c :: rest, acc =>
      if c.isDigit then parseDigits rest (acc * 10 + (c.toNat - 48)) else none

def pyInt (s : String) : Option Int :=
  match s.data with
  | [] => none
  | c :: rest =>
      if c = '-' then
        if rest.isEmpty then none
        else (parseDigits rest 0).map (fun n => -(n : Int))
      else if c = '+' then
        if rest.isEmpty then none
        else (parseDigits rest 0).map (fun n => (n : Int))
      else (parseDigits (c :: rest) 0).map (fun n => (n : Int))

/-- The sort by order_id descending in find_one: MongoDB compares strings
lexicographically, which is the String order of Lean. Returns the largest
order_id among the stored orders, none when the collection is empty. -/
def maxOrderId (orders : List Order) : Option String :=
  orders.foldl
    (fun acc o =>
      match acc with
      | none => some o.order_id
      | some m => if m < o.order_id then some o.order_id else some m)
    none

/-- Lines 1199-1207: parse the highest existing identifier and add one,
falling back to 1 when there is none or it fails to parse. -/
def nextNumber (orders : List Order) : Int :=
  match maxOrderId orders with
  | none => 1
  | some s =>
      match pyInt s with
      | some k => k + 1
      | none => 1

/-- Line 1210: the identifier assigned to the next order. -/
def nextOrderId (orders : List Order) : String := format04 (nextNumber orders)

/-! ### Order placement (create_order, lines 1178-1260) -/

inductive OrderError where
  /-- 404: authenticated user no longer in db.users. -/
  | userNotFound
  /-- 400: no delivery address on file. -/
  | missingAddress
  /-- 404 in the buy-now validation loop: unknown product. -/
  | productNotFound (productId : String)
  /-- 500 in the create_order stock-reduction loop: unknown product. -/
  | productMissingDuringReduction (productId : String)
  /-- 400: requested quantity exceeds current stock. -/
  | insufficientStock (name : String)
  /-- 500: the generic exception handler. -/
  | internal
deriving DecidableEq, Repr

/-- Lines 1233-1251: the per-item stock reduction loop of create_order.
Each item is re-read, re-checked and decremented independently; a failure
aborts the loop keeping all previous decrements (and the already-inserted
order). Returns the error, if any, with the database at the raise point. -/
def reduceStock : List OrderItem → DB → Option OrderError × DB
  | [], db => (none, db)
  | item :: rest, db =>
      match db.products.find? (fun p => p.id == item.product_id) with
      | none => (some (.productMissingDuringReduction item.product_id), db)
      | some p =>
          if p.stock < item.quantity then
            (some (.insufficientStock item.name), db)
          else
            reduceStock rest
              { db with
                products :=
                  updateFirst (fun q => q.id == item.product_id)
                    (fun q => { q with stock := p.stock - item.quantity }) db.products }

/-- The order record built by create_order (lines 1212-1228) before
insertion: client payload plus user snapshot, pending status, and the
sequential identifier (which also overrides the id field). -/
def buildOrder (uid email : String) (addr : DeliveryAddress) (data : OrderCreate)
    (oid : String) : Order :=
  { id := oid
    products := data.products
    total_amount := data.total_amount
    user_id := uid
    user_email := email
    status := "pending"
    delivery_address := addr
    order_id := oid }

/-- Packaging of the loop outcome: an error aborts the request, success
returns the already-built order; either way the state of the loop stands. -/
def orderResult (order : Order) (res : Option OrderError × DB) :
    Except OrderError Order × DB :=
  (match res.1 with
   | some e => Except.error e
   | none => Except.ok order, res.2)

/-- create_order (lines 1178-1260): address check, identifier allocation,
unconditional insert of the order record, then the stock-reduction loop. -/
def create_order (uid : String) (data : OrderCreate) (db : DB) :
    Except OrderError Order × DB :=
  match db.users.find? (fun u => u.id == uid) with
  | none => (.error .userNotFound, db)
  | some u =>
      match u.delivery_address with
      | none => (.error .missingAddress, db)
      | some addr =>
          let oid := nextOrderId db.orders
          let order := buildOrder uid u.email addr data oid
          let db1 := { db with orders := db.orders ++ [order] }
          orderResult order (reduceStock data.products db1)

/-- Lines 1353-1361: the buy-now pre-validation loop, checking every item
against the *initial* product store without mutating anything. -/
def validateStock (items : List OrderItem) (products : List Product) :
    Option OrderError :=
  match items with
  | [] => none
  | item :: rest =>
      match products.find? (fun p => p.id == item.product_id) with
      | none => some (.productNotFound item.product_id)
      | some p =>
          if p.stock < item.quantity then some (.insufficientStock item.name)
          else validateStock rest products

/-- Lines 1398-1406: the buy-now decrement loop; no recheck, it simply
subtracts each quantity. A vanished product would hit the generic handler. -/
def reduceStockNoCheck : List OrderItem → DB → Option OrderError × DB
  | [], db => (none, db)
  | item :: rest, db =>
      match db.products.find? (fun p => p.id == item.product_id) with
      | none => (some .internal, db)
      | some p =>
          reduceStockNoCheck rest
            { db with
              products :=
                updateFirst (fun q => q.id == item.product_id)
                  (fun q => { q with stock := p.stock - item.quantity }) db.products }

/-- create_buy_now_order (lines 1339-1414): same address gate, then the
pre-validation loop, then the same identifier allocation and order record,
insertion, and the uncheck decrement loop. -/
def create_buy_now_order (uid : String) (data : OrderCreate) (db : DB) :
    Except OrderError Order × DB :=
  match db.users.find? (fun u => u.id == uid) with
  | none => (.error .userNotFound, db)
  | some u =>
      match u.delivery_address with
      | none => (.error .missingAddress, db)
      | some addr =>
          match validateStock data.products db.products with
          | some e => (.error e, db)
          | none =>
              let oid := nextOrderId db.orders
              let order := buildOrder uid u.email addr data oid
              let db1 := { db with orders := db.orders ++ [order] }
              orderResult order (reduceStockNoCheck data.products db1)

/-! ### Order status updates (update_order_status 1262-1285, cancel_order 1287-1337) -/

inductive StatusError where
  | invalidStatus
  | notFound
  | cannotCancel
deriving DecidableEq, Repr

def validOrderStatuses : List String :=
  ["pending", "confirmed", "shipped", "delivered", "cancelled"]

/-- update_order_status (admin, lines 1262-1285): validate the target
status against the allowed list and set it on the matching order with no
check of the current status. We model lookup by the id field; the
ObjectId fallback addresses Mongo internal keys outside this model. -/
def update_order_status (oid status : String) (db : DB) :
    Except StatusError Unit × DB :=
  if validOrderStatuses.contains status then
    if (db.orders.find? (fun o => o.id == oid)).isSome then
      (.ok (),
        { db with
          orders := updateFirst (fun o => o.id == oid)
            (fun o => { o with status := status }) db.orders })
    else (.error .notFound, db)
  else (.error .invalidStatus, db)

/-- Python str.lower on the ASCII statuses stored by this server. -/
def pyLower (s : String) : String := String.mk (s.data.map Char.toLower)

/-- Line 1307: status of the fetched order, with Python falsiness — a
missing or empty status reads as pending — then lowercased. -/
def normCancelStatus (s : String) : String :=
  pyLower (if s = "" then "pending" else s)

/-- cancel_order (lines 1287-1337): the caller's own order is fetched,
its (normalized) status must be pending or confirmed, then the status is
set to cancelled. No product is touched: no restock. -/
def cancel_order (uid oid : String) (db : DB) : Except StatusError Unit × DB :=
  match db.orders.find? (fun o => o.user_id == uid && o.id == oid) with
  | none => (.error .notFound, db)
  | some o =>
      let st := normCancelStatus o.status
      if st = "pending" ∨ st = "confirmed" then
        (.ok (),
          { db with
            orders := updateFirst (fun q => q.user_id == uid && q.id == oid)
              (fun q => { q with status := "cancelled" }) db.orders })
      else (.error .cannotCancel, db)

/-! ### OTP verification (verify_otp 515-545, forgot_password_verify
592-616, verify_change_password_otp 825-873) -/

inductive VerifyError where
  | notFound
  | alreadyVerified
  | invalidPurpose
  | invalidOTP
  | expired
  | noPendingPassword
  /-- 500: uncaught KeyError on a missing otpExpires field, or the
  generic exception handler. -/
  | internal
deriving DecidableEq, Repr

def findUserByEmail (db : DB) (email : String) : Option UserRec :=
  db.users.find? (fun u => u.email == email)

def updateUserByEmail (db : DB) (email : String) (f : UserRec → UserRec) : DB :=
  { db with users := updateFirst (fun u => u.email == email) f db.users }

/-- verify_otp (lines 515-545), the registration verifier: user lookup,
already-verified check, exact code comparison, tz-normalized expiry
comparison; on success set isVerified and unset otp and otpExpires.
Note: this route checks no purpose tag. -/
def verify_otp (now : Int) (email otp : String) (db : DB) :
    Except VerifyError Unit × DB :=
  match findUserByEmail db email with
  | none => (.error .notFound, db)
  | some u =>
      if u.isVerified then (.error .alreadyVerified, db)
      else if u.otp ≠ some otp then (.error .invalidOTP, db)
      else
        match u.otpExpires with
        | none => (.error .internal, db)
        | some e =>
            if now > (ensureAware e).instant then (.error .expired, db)
            else
              (.ok (),
                updateUserByEmail db email
                  (fun v => { v with isVerified := true, otp := none, otpExpires := none }))

/-- forgot_password_verify (lines 592-616): user lookup, purpose must be
reset, exact code comparison, tz-normalized expiry comparison; no state
change on success. -/
def forgot_password_verify (now : Int) (email otp : String) (db : DB) :
    Except VerifyError Unit × DB :=
  match findUserByEmail db email with
  | none => (.error .notFound, db)
  | some u =>
      if u.otpPurpose ≠ some "reset" then (.error .invalidPurpose, db)
      else if u.otp ≠ some otp then (.error .invalidOTP, db)
      else
        match u.otpExpires with
        | none => (.error .internal, db)
        | some e =>
            if now > (ensureAware e).instant then (.error .expired, db)
            else (.ok (), db)

def findUserById (db : DB) (uid : String) : Option UserRec :=
  db.users.find? (fun u => u.id == uid)

def updateUserById (db : DB) (uid : String) (f : UserRec → UserRec) : DB :=
  { db with users := updateFirst (fun u => u.id == uid) f db.users }

/-- verify_change_password_otp (lines 825-873): by authenticated user id;
purpose must be change_password, exact code, tz-normalized expiry, a
falsy (absent or empty) pending hash is rejected; on success commit the
pending hash and unset all four OTP fields. -/
def verify_change_password_otp (now : Int) (uid otp : String) (db : DB) :
    Except VerifyError Unit × DB :=
  match findUserById db uid with
  | none => (.error .notFound, db)
  | some u =>
      if u.otpPurpose ≠ some "change_password" then (.error .invalidPurpose, db)
      else if u.otp ≠ some otp then (.error .invalidOTP, db)
      else
        match u.otpExpires with
        | none => (.error .internal, db)
        | some e =>
            if now > (ensureAware e).instant then (.error .expired, db)
            else
              match u.pendingNewPassword with
              | none => (.error .noPendingPassword, db)
              | some h =>
                  if h = "" then (.error .noPendingPassword, db)
                  else
                    (.ok (),
                      updateUserById db uid
                        (fun v =>
                          { v with
                            password_hash := h
                            otp := none
                            otpExpires := none
                            otpPurpose := none
                            pendingNewPassword := none }))

/-! ### Rating submission (submit_product_rating, lines 1094-1151) -/

inductive RatingError where
  | productNotFound
  | duplicateRating
deriving DecidableEq, Repr

/-- All stored ratings of one product, in insertion order. -/
def ratingsFor (db : DB) (pid : String) : List RatingRec :=
  db.ratings.filter (fun r => r.product_id == pid)

/-- The aggregation pipeline over a product's ratings: average and count.
MongoDB computes the average in doubles; the embedding uses the exact
rational mean. -/
def ratingAverage (rs : List RatingRec) : ℚ :=
  ((rs.map (fun r => (r.rating : ℚ))).sum) / (rs.length : ℚ)

/-- submit_product_rating (lines 1094-1151): product existence check,
duplicate check on the (user, product) pair, insert, then recompute the
denormalized average and count from all ratings of the product and write
them onto the product document. -/
def submit_product_rating (uid pid : String) (value : Nat) (db : DB) :
    Except RatingError Unit × DB :=
  if (db.products.find? (fun p => p.id == pid)).isNone then
    (.error .productNotFound, db)
  else if (db.ratings.find?
      (fun r => r.user_id == uid && r.product_id == pid)).isSome then
    (.error .duplicateRating, db)
  else
    let db1 := { db with
      ratings := db.ratings ++ [{ user_id := uid, product_id := pid, rating := value }] }
    let rs := ratingsFor db1 pid
    if rs.isEmpty then (.ok (), db1)
    else
      (.ok (),
        { db1 with
          products := updateFirst (fun p => p.id == pid)
            (fun p => { p with
              average_rating := ratingAverage rs
              total_ratings := rs.length }) db1.products })

/-! ### Support tickets (update_support_ticket 1445-1471,
user_reply_to_ticket 1476-1501) -/

inductive TicketError where
  | notFound
  | ticketClosed
  | invalidStatus
  | noFields
deriving DecidableEq, Repr

/-- user_reply_to_ticket (lines 1476-1501): the requester's own ticket is
fetched; a closed ticket rejects the reply; otherwise the user message is
appended (the push update matches on the id field alone). -/
def user_reply_to_ticket (uid tid reply : String) (now : Int) (db : DB) :
    Except TicketError Unit × DB :=
  match db.tickets.find? (fun t => t.id == tid && t.user_id == some uid) with
  | none => (.error .notFound, db)
  | some t =>
      if t.status == "closed" then (.error .ticketClosed, db)
      else
        (.ok (),
          { db with
            tickets := updateFirst (fun s => s.id == tid)
              (fun s => { s with
                messages := s.messages ++
                  [{ sender := "user", message := reply, timestamp := now }] })
              db.tickets })

/-- Admin payload for a ticket update; Python falsiness makes an empty
string behave like an absent field. -/
structure TicketUpdate where
  status : Option String
  admin_reply : Option String
deriving DecidableEq, Repr

def truthy : Option String → Bool
  | none => false
  | some s => s ≠ ""

def validTicketStatuses : List String := ["open", "in_progress", "closed"]

/-- update_support_ticket (admin, lines 1445-1471): an optional status
set (validated against the allowed list, but with no transition check)
and an optional appended admin message; at least one of the two must be
present; applied to the ticket matched by id whatever its status. -/
def update_support_ticket (tid : String) (upd : TicketUpdate) (now : Int)
    (db : DB) : Except TicketError Unit × DB :=
  if truthy upd.status ∧ ¬ validTicketStatuses.contains (upd.status.getD "") then
    (.error .invalidStatus, db)
  else if ¬ truthy upd.status ∧ ¬ truthy upd.admin_reply then
    (.error .noFields, db)
  else if (db.tickets.find? (fun t => t.id == tid)).isNone then
    (.error .notFound, db)
  else
    (.ok (),
      { db with
        tickets := updateFirst (fun t => t.id == tid)
          (fun t =>
            let t1 := if truthy upd.status then
                { t with status := upd.status.getD "" } else t
            if truthy upd.admin_reply then
              { t1 with
                messages := t1.messages ++
                  [{ sender := "admin", message := upd.admin_reply.getD ""
                     timestamp := now }] }
            else t1)
          db.tickets })

/-! ### Admin user deletion (delete_user, lines 964-972) -/

inductive DeleteError where
  | cannotDeleteSelf
  | notFound
deriving DecidableEq, Repr

/-- delete_user (lines 964-972): an admin may not delete their own id;
otherwise the first user document with the given id is removed. -/
def delete_user (adminId targetId : String) (db : DB) :
    Except DeleteError Unit × DB :=
  if targetId == adminId then (.error .cannotDeleteSelf, db)
  else if (db.users.find? (fun u => u.id == targetId)).isSome then
    (.ok (), { db with users := db.users.eraseP (fun u => u.id == targetId) })
  else (.error .notFound, db)

/-! ### Sequential runs and invariant predicates -/

/-- A sequence of sequential order placements: each request is the
authenticated user id together with the client payload. -/
def runOrders : List (String × OrderCreate) → DB → DB
  | [], db => db
  | r :: rest, db => runOrders rest (create_order r.1 r.2 db).2

/-- A request reaches the identifier-allocation step (and hence persists
an order) exactly when its user exists and has a delivery address. -/
def passes (users : List UserRec) (uid : String) : Bool :=
  match users.find? (fun u => u.id == uid) with
  | none => false
  | some u => u.delivery_address.isSome

/-- Every stored product has non-negative stock. -/
abbrev stocksNonneg (db : DB) : Prop := ∀ p ∈ db.products, 0 ≤ p.stock

/-- The identifiers of the stored orders, in insertion order. -/
def orderIds (db : DB) : List String := db.orders.map (fun o => o.order_id)

/-- The expected identifier list after k persisted orders from an empty
store: pad4 1, ..., pad4 k. -/
def seqIds (k : Nat) : List String := (List.range k).map (fun i => pad4 (i + 1))

/-- maxOrderId as a function of the identifier list alone. -/
def maxId (ids : List String) : Option String :=
  ids.foldl
    (fun acc s =>
      match acc with
      | none => some s
      | some m => if m < s then some s else some m)
    none

/-- A sequence of rating submissions for one product: submitting user
paired with the rating value. -/
def runRatings (pid : String) : List (String × Nat) → DB → DB
  | [], db => db
  | s :: rest, db => runRatings pid rest (submit_product_rating s.1 pid s.2 db).2

/-- The rating document inserted for one submission. -/
def mkRating (pid : String) (s : String × Nat) : RatingRec :=
  { user_id := s.1, product_id := pid, rating := s.2 }

/-! ### Concrete fixtures for counterexamples and witnesses -/

def addrW : DeliveryAddress :=
  { full_name := "A", phone_number := "1", street := "s", city := "c"
    state := "st", postal_code := "1", country := "x", pincode := none }

def userW : UserRec :=
  { id := "u1", name := "N", email := "a@b.c", role := "user"
    password_hash := "h", isVerified := false, otp := some "123456"
    otpExpires := some { instant := 100, aware := false }
    otpPurpose := some "reset", pendingNewPassword := none
    delivery_address := some addrW }

def userClean : UserRec :=
  { userW with id := "u2", email := "d@e.f", otpPurpose := none }

def prodA : Product :=
  { id := "pA", name := "Alpha", price := 5, description := "d"
    category := "c", stock := 5, images := [], average_rating := 0
    total_ratings := 0 }

def prodB : Product := { prodA with id := "pB", name := "Beta", stock := 0 }

def itemA : OrderItem :=
  { product_id := "pA", name := "Alpha", quantity := 2, price := 5, total := none }

def itemB : OrderItem :=
  { product_id := "pB", name := "Beta", quantity := 1, price := 5, total := none }

/-- A two-line-item order whose second item is out of stock. -/
def ocMixed : OrderCreate := { products := [itemA, itemB], total_amount := 15 }

/-- A single-line-item order that is in stock. -/
def ocGood : OrderCreate := { products := [itemA], total_amount := 10 }

def dbW : DB :=
  { users := [userW, userClean], products := [prodA, prodB], orders := []
    ratings := [], tickets := [] }

def orderDelivered : Order :=
  { id := "0001", products := [itemA], total_amount := 10, user_id := "u1"
    user_email := "a@b.c", status := "delivered", delivery_address := addrW
    order_id := "0001" }

def orderPending : Order :=
  { orderDelivered with id := "0002", order_id := "0002", status := "pending" }

def dbOrders : DB := { dbW with orders := [orderDelivered, orderPending] }

def ticketClosedW : Ticket :=
  { id := "t1", user_id := some "u1", status := "closed"
    messages := [{ sender := "user", message := "hi", timestamp := 0 }] }

def dbTickets : DB := { dbW with tickets := [ticketClosedW] }

/-! ### Generic lemmas about the list-level Mongo operations -/

theorem find?_updateFirst {α : Type} (p : α → Bool) (f : α → α) (xs : List α)
    (hf : ∀ a, p a = true → p (f a) = true) :
    (updateFirst p f xs).find? p = (xs.find? p).map f := by
  induction xs with
  | nil => rfl
  | cons x xs ih =>
    by_cases h : p x = true
    · rw [updateFirst, if_pos h, List.find?_cons_of_pos _ (hf x h),
        List.find?_cons_of_pos _ h, Option.map_some']
    · rw [updateFirst, if_neg h, List.find?_cons_of_neg _ h,
        List.find?_cons_of_neg _ h, ih]

theorem mem_updateFirst {α : Type} {P : α → Prop} (p : α → Bool) (f : α → α)
    (xs : List α) (h1 : ∀ a ∈ xs, P a) (h2 : ∀ a ∈ xs, P (f a)) :
    ∀ b ∈ updateFirst p f xs, P b := by
  induction xs with
  | nil => intro b hb; simp [updateFirst] at hb
  | cons x xs ih =>
    intro b hb
    rw [updateFirst] at hb
    by_cases h : p x = true
    · rw [if_pos h] at hb
      rcases List.mem_cons.mp hb with hbx | hb
      · exact hbx ▸ h2 x (List.mem_cons_self x xs)
      · exact h1 b (List.mem_cons_of_mem _ hb)
    · rw [if_neg h] at hb
      rcases List.mem_cons.mp hb with hbx | hb
      · exact hbx ▸ h1 x (List.mem_cons_self x xs)
      · exact ih (fun a ha => h1 a (List.mem_cons_of_mem _ ha))
          (fun a ha => h2 a (List.mem_cons_of_mem _ ha)) b hb

theorem find?_stronger {α : Type} {p q : α → Bool} {xs : List α} {t : α}
    (h : xs.find? p = some t) (hq : q t = true)
    (himp : ∀ x, q x = true → p x = true) :
    xs.find? q = some t := by
  induction xs with
  | nil => simp at h
  | cons x xs ih =>
    by_cases hx : p x = true
    · rw [List.find?_cons_of_pos _ hx] at h
      obtain rfl : x = t := Option.some.inj h
      rw [List.find?_cons_of_pos _ hq]
    · rw [List.find?_cons_of_neg _ hx] at h
      have hqx : ¬ q x = true := fun hqx => hx (himp x hqx)
      rw [List.find?_cons_of_neg _ hqx]
      exact ih h

/-! ### Decimal digit and pad4 theory -/

theorem digitChar_facts :
    ∀ d < 10, (digitChar d).isDigit = true ∧ (digitChar d).toNat - 48 = d ∧
      digitChar d ≠ '-' ∧ digitChar d ≠ '+' := by decide

theorem digitChar_lt_iff :
    ∀ a < 10, ∀ b < 10, (digitChar a < digitChar b ↔ a < b) := by decide

theorem natDigitsRevFuel_congr : ∀ f1 f2 n, n < f1 → n < f2 →
    natDigitsRevFuel f1 n = natDigitsRevFuel f2 n := by
  intro f1
  induction f1 with
  | zero => omega
  | succ f1 ih =>
    intro f2 n h1 h2
    cases f2 with
    | zero => omega
    | succ f2 =>
      by_cases h10 : n < 10
      · rw [natDigitsRevFuel, natDigitsRevFuel, if_pos h10, if_pos h10]
      · have hdiv : n / 10 < n := Nat.div_lt_self (by omega) (by omega)
        rw [natDigitsRevFuel, natDigitsRevFuel, if_neg h10, if_neg h10,
          ih f2 (n / 10) (by omega) (by omega)]

theorem natDigitsRev_eq (n : Nat) :
    natDigitsRev n = if n < 10 then [n] else n % 10 :: natDigitsRev (n / 10) := by
  by_cases h10 : n < 10
  · rw [natDigitsRev, natDigitsRevFuel, if_pos h10, if_pos h10]
  · have hdiv : n / 10 < n := Nat.div_lt_self (by omega) (by omega)
    rw [natDigitsRev, natDigitsRevFuel, if_neg h10, if_neg h10,
      natDigitsRevFuel_congr n (n / 10 + 1) (n / 10) (by omega) (by omega)]
    rfl

theorem pad4_data (n : Nat) (h : n ≤ 9999) :
    (pad4 n).data =
      [digitChar (n / 1000), digitChar (n / 100 % 10),
       digitChar (n / 10 % 10), digitChar (n % 10)] := by
  rcases Nat.lt_or_ge n 10 with h1 | h1
  · have e3 : n / 1000 = 0 := by omega
    have e2 : n / 100 % 10 = 0 := by omega
    have e1 : n / 10 % 10 = 0 := by omega
    have e0 : n % 10 = n := by omega
    rw [e3, e2, e1, e0, pad4, decStr, natDigitsRev_eq, if_pos h1]
    simp [zeroPad, digitChar, List.replicate]
  rcases Nat.lt_or_ge n 100 with h2 | h2
  · have e3 : n / 1000 = 0 := by omega
    have e2 : n / 100 % 10 = 0 := by omega
    have e1 : n / 10 % 10 = n / 10 := by omega
    rw [e3, e2, e1, pad4, decStr, natDigitsRev_eq, if_neg (by omega),
      natDigitsRev_eq, if_pos (by omega : n / 10 < 10)]
    simp [zeroPad, digitChar, List.replicate]
  rcases Nat.lt_or_ge n 1000 with h3 | h3
  · have e3 : n / 1000 = 0 := by omega
    have e2 : n / 100 % 10 = n / 100 := by omega
    have ed : n / 10 / 10 = n / 100 := by omega
    rw [e3, e2, pad4, decStr, natDigitsRev_eq, if_neg (by omega),
      natDigitsRev_eq, if_neg (by omega : ¬ n / 10 < 10), ed,
      natDigitsRev_eq, if_pos (by omega : n / 100 < 10)]
    simp [zeroPad, digitChar, List.replicate]
  · have ed1 : n / 10 / 10 = n / 100 := by omega
    have ed2 : n / 100 / 10 = n / 1000 := by omega
    rw [pad4, decStr, natDigitsRev_eq, if_neg (by omega),
      natDigitsRev_eq, if_neg (by omega : ¬ n / 10 < 10), ed1,
      natDigitsRev_eq, if_neg (by omega : ¬ n / 100 < 10), ed2,
      natDigitsRev_eq, if_pos (by omega : n / 1000 < 10)]
    simp [zeroPad, digitChar, List.replicate]

theorem pad4_lt {m n : Nat} (hmn : m < n) (hn : n ≤ 9999) : pad4 m < pad4 n := by
  have hm : m ≤ 9999 := by omega
  rw [String.lt_iff_toList_lt]
  show List.Lex (· < ·) (pad4 m).data (pad4 n).data
  rw [pad4_data m hm, pad4_data n hn]
  have b3m : m / 1000 < 10 := by omega
  have b3n : n / 1000 < 10 := by omega
  have b2m : m / 100 % 10 < 10 := by omega
  have b2n : n / 100 % 10 < 10 := by omega
  have b1m : m / 10 % 10 < 10 := by omega
  have b1n : n / 10 % 10 < 10 := by omega
  have b0m : m % 10 < 10 := by omega
  have b0n : n % 10 < 10 := by omega
  by_cases h3 : m / 1000 = n / 1000
  · rw [h3]
    by_cases h2 : m / 100 % 10 = n / 100 % 10
    · rw [h2]
      by_cases h1 : m / 10 % 10 = n / 10 % 10
      · rw [h1]
        have h0 : m % 10 < n % 10 := by omega
        exact .cons (.cons (.cons (.rel ((digitChar_lt_iff _ b0m _ b0n).mpr h0))))
      · have hlt : m / 10 % 10 < n / 10 % 10 := by omega
        exact .cons (.cons (.rel ((digitChar_lt_iff _ b1m _ b1n).mpr hlt)))
    · have hlt : m / 100 % 10 < n / 100 % 10 := by omega
      exact .cons (.rel ((digitChar_lt_iff _ b2m _ b2n).mpr hlt))
  · have hle : m / 1000 ≤ n / 1000 := Nat.div_le_div_right (Nat.le_of_lt hmn)
    have hlt : m / 1000 < n / 1000 := by omega
    exact .rel ((digitChar_lt_iff _ b3m _ b3n).mpr hlt)

theorem pyInt_pad4 (n : Nat) (h : n ≤ 9999) : pyInt (pad4 n) = some (n : Int) := by
  obtain ⟨hd3, ht3, hm3, hp3⟩ := digitChar_facts (n / 1000) (by omega)
  obtain ⟨hd2, ht2, hm2, hp2⟩ := digitChar_facts (n / 100 % 10) (by omega)
  obtain ⟨hd1, ht1, hm1, hp1⟩ := digitChar_facts (n / 10 % 10) (by omega)
  obtain ⟨hd0, ht0, hm0, hp0⟩ := digitChar_facts (n % 10) (by omega)
  unfold pyInt
  rw [pad4_data n h]
  dsimp only
  rw [if_neg hm3, if_neg hp3]
  simp [parseDigits, hd3, hd2, hd1, hd0, ht3, ht2, ht1, ht0]
  omega

/-! ### Identifier-allocation lemmas -/

theorem maxOrderId_eq_maxId (orders : List Order) :
    maxOrderId orders = maxId (orders.map (fun o => o.order_id)) := by
  simp [maxOrderId, maxId, List.foldl_map]

theorem maxId_append (ids : List String) (s : String) :
    maxId (ids ++ [s]) =
      match maxId ids with
      | none => some s
      | some m => if m < s then some s else some m := by
  simp [maxId, List.foldl_append]

theorem seqIds_succ (k : Nat) : seqIds (k + 1) = seqIds k ++ [pad4 (k + 1)] := by
  simp [seqIds, List.range_succ]

theorem maxId_seqIds (k : Nat) (h1 : 1 ≤ k) (h9 : k ≤ 9999) :
    maxId (seqIds k) = some (pad4 k) := by
  induction k with
  | zero => omega
  | succ k ih =>
    rw [seqIds_succ, maxId_append]
    by_cases hk : k = 0
    · subst hk
      rfl
    · rw [ih (by omega) (by omega)]
      have hlt : pad4 k < pad4 (k + 1) := pad4_lt (by omega) h9
      simp [hlt]

theorem nextNumber_seqIds (orders : List Order) (k : Nat)
    (h : orders.map (fun o => o.order_id) = seqIds k) (h9 : k ≤ 9999) :
    nextNumber orders = (k : Int) + 1 := by
  unfold nextNumber
  rw [maxOrderId_eq_maxId, h]
  by_cases hk : k = 0
  · subst hk
    rfl
  · rw [maxId_seqIds k (by omega) h9]
    dsimp only
    rw [pyInt_pad4 k h9]

theorem format04_ofNat (n : Nat) : format04 (n : Int) = pad4 n := by
  unfold format04 pad4
  rw [if_neg (by omega : ¬ (n : Int) < 0)]
  norm_num

theorem nextOrderId_seqIds (orders : List Order) (k : Nat)
    (h : orders.map (fun o => o.order_id) = seqIds k) (h9 : k ≤ 9999) :
    nextOrderId orders = pad4 (k + 1) := by
  rw [nextOrderId, nextNumber_seqIds orders k h h9]
  have : ((k : Int) + 1) = ((k + 1 : Nat) : Int) := by omega
  rw [this, format04_ofNat]

/-! ### Structural lemmas about create_order -/

theorem reduceStock_frame (items : List OrderItem) (db : DB) :
    (reduceStock items db).2.orders = db.orders ∧
    (reduceStock items db).2.users = db.users ∧
    (reduceStock items db).2.ratings = db.ratings ∧
    (reduceStock items db).2.tickets = db.tickets := by
  induction items generalizing db with
  | nil => exact ⟨rfl, rfl, rfl, rfl⟩
  | cons item rest ih =>
    rw [reduceStock]
    cases hf : db.products.find? (fun p => p.id == item.product_id) with
    | none => exact ⟨rfl, rfl, rfl, rfl⟩
    | some p =>
      dsimp only
      by_cases hq : p.stock < item.quantity
      · rw [if_pos hq]
        exact ⟨rfl, rfl, rfl, rfl⟩
      · rw [if_neg hq]
        exact ih _

/-- The database after create_order: users are untouched, and the order
list gains exactly one record — with the next sequential identifier —
precisely when the user exists and has an address. -/
theorem orderResult_snd (o : Order) (res : Option OrderError × DB) :
    (orderResult o res).2 = res.2 := rfl

theorem create_order_users (uid : String) (d : OrderCreate) (db : DB) :
    (create_order uid d db).2.users = db.users := by
  rw [create_order]
  cases hf : db.users.find? (fun u => u.id == uid) with
  | none => rfl
  | some u =>
    dsimp only
    cases ha : u.delivery_address with
    | none => rfl
    | some addr =>
      dsimp only
      exact (reduceStock_frame _ _).2.1

theorem create_order_orderIds (uid : String) (d : OrderCreate) (db : DB) :
    orderIds (create_order uid d db).2 =
      if passes db.users uid then orderIds db ++ [nextOrderId db.orders]
      else orderIds db := by
  rw [create_order, passes]
  cases hf : db.users.find? (fun u => u.id == uid) with
  | none => rfl
  | some u =>
    dsimp only
    cases ha : u.delivery_address with
    | none => rfl
    | some addr =>
      dsimp only [Option.isSome]
      rw [if_pos rfl]
      have hfr := (reduceStock_frame d.products
        { db with orders := db.orders ++ [buildOrder uid u.email addr d (nextOrderId db.orders)] }).1
      rw [orderIds, orderResult_snd, hfr]
      simp [orderIds, buildOrder]

theorem runOrders_ids (reqs : List (String × OrderCreate)) (db : DB) (k : Nat)
    (hids : orderIds db = seqIds k)
    (hk : k + reqs.countP (fun r => passes db.users r.1) ≤ 9999) :
    orderIds (runOrders reqs db) =
      seqIds (k + reqs.countP (fun r => passes db.users r.1)) := by
  induction reqs generalizing db k with
  | nil => simpa using hids
  | cons r rest ih =>
    rw [runOrders]
    have husers := create_order_users r.1 r.2 db
    simp only [List.countP_cons] at hk ⊢
    have hcnt : rest.countP (fun s => passes (create_order r.1 r.2 db).2.users s.1)
        = rest.countP (fun s => passes db.users s.1) := by rw [husers]
    by_cases hp : passes db.users r.1 = true
    · simp only [hp, if_pos] at hk ⊢
      have h9 : k ≤ 9999 := by omega
      have hids' : orderIds (create_order r.1 r.2 db).2 = seqIds (k + 1) := by
        rw [create_order_orderIds, if_pos hp, hids,
          nextOrderId_seqIds db.orders k hids h9, ← seqIds_succ]
      have := ih (create_order r.1 r.2 db).2 (k + 1) hids' (by rw [hcnt]; omega)
      rw [hcnt] at this
      rw [this]
      congr 1
      omega
    · simp only [hp, if_neg, Bool.false_eq_true, not_false_eq_true] at hk ⊢
      have hids' : orderIds (create_order r.1 r.2 db).2 = seqIds k := by
        rw [create_order_orderIds, if_neg, hids]
        simpa using hp
      have := ih (create_order r.1 r.2 db).2 k hids' (by rw [hcnt]; omega)
      rw [hcnt] at this
      simpa using this

theorem seqIds_pairwise (n : Nat) (h : n ≤ 9999) :
    List.Pairwise (fun a b : String => a < b) (seqIds n) := by
  rw [seqIds, List.pairwise_map]
  apply List.Pairwise.imp_of_mem ?_ (List.pairwise_lt_range n)
  intro a b ha hb hab
  exact pad4_lt (by omega) (by have := List.mem_range.mp hb; omega)

theorem reduceStock_nonneg (items : List OrderItem) (db : DB)
    (h : ∀ p ∈ db.products, 0 ≤ p.stock) :
    ∀ p ∈ (reduceStock items db).2.products, 0 ≤ p.stock := by
  induction items generalizing db with
  | nil => exact h
  | cons item rest ih =>
    rw [reduceStock]
    cases hf : db.products.find? (fun p => p.id == item.product_id) with
    | none => exact h
    | some p =>
      dsimp only
      by_cases hq : p.stock < item.quantity
      · rw [if_pos hq]
        exact h
      · rw [if_neg hq]
        apply ih
        apply mem_updateFirst _ _ _ h
        intro a _
        dsimp only
        omega

theorem create_order_stocksNonneg (uid : String) (d : OrderCreate) (db : DB)
    (h : stocksNonneg db) : stocksNonneg (create_order uid d db).2 := by
  rw [create_order]
  cases hf : db.users.find? (fun u => u.id == uid) with
  | none => exact h
  | some u =>
    dsimp only
    cases ha : u.delivery_address with
    | none => exact h
    | some addr =>
      dsimp only
      intro p hp
      refine reduceStock_nonneg d.products
        { db with orders := db.orders ++ [buildOrder uid u.email addr d (nextOrderId db.orders)] }
        ?_ p hp
      exact h

theorem orderResult_ok {o o'' : Order} {r : Option OrderError × DB} :
    (orderResult o r).1 = Except.ok o'' ↔ r.1 = none ∧ o = o'' := by
  rcases r with ⟨err, db2⟩
  cases err <;> simp [orderResult, eq_comm]

theorem reduceStockNoCheck_of_ok (items : List OrderItem) (db db2 : DB)
    (h : reduceStock items db = (none, db2)) :
    reduceStockNoCheck items db = (none, db2) := by
  induction items generalizing db with
  | nil =>
    rw [reduceStock] at h
    rw [reduceStockNoCheck]
    exact h
  | cons item rest ih =>
    rw [reduceStock] at h
    rw [reduceStockNoCheck]
    cases hf : db.products.find? (fun p => p.id == item.product_id) with
    | none =>
      rw [hf] at h
      exact absurd h (by simp)
    | some p =>
      rw [hf] at h
      dsimp only at h ⊢
      by_cases hq : p.stock < item.quantity
      · rw [if_pos hq] at h
        exact absurd h (by simp)
      · rw [if_neg hq] at h
        exact ih _ h

/-! ### Claim C1 -/

/-- C1 (amended): across any sequence of sequential order placements via
create_order, every product's stock stays non-negative — each line item
is decremented only after its own sufficiency check. The original
rejected-in-full part of the claim is refuted separately: the order
record is persisted and earlier line items decremented before the
failing check. -/
theorem stock_nonneg_after_sequential_orders (reqs : List (String × OrderCreate))
    (db : DB) (h : stocksNonneg db) : stocksNonneg (runOrders reqs db) := by
  induction reqs generalizing db with
  | nil => exact h
  | cons r rest ih => exact ih _ (create_order_stocksNonneg r.1 r.2 db h)

/-- C1 witness: the invariant theorem applied to a concrete store and a
concrete two-request run. -/
theorem stock_nonneg_after_sequential_orders_witness :
    stocksNonneg dbW ∧ stocksNonneg (runOrders [("u1", ocGood), ("u1", ocMixed)] dbW) :=
  ⟨by decide, stock_nonneg_after_sequential_orders [("u1", ocGood), ("u1", ocMixed)] dbW (by decide)⟩

/-- C1 counterexample: a two-item order whose second item exceeds stock is
rejected with InsufficientStock, yet the order record was already persisted
(one order appears in the empty store) and the first item's stock was
already decremented from 5 to 3 — refuting the rejected-in-full part. -/
theorem create_order_partial_commit_counterexample :
    (create_order "u1" ocMixed dbW).1 = Except.error (OrderError.insufficientStock "Beta") ∧
    dbW.orders.length = 0 ∧
    (create_order "u1" ocMixed dbW).2.orders.length = 1 ∧
    (create_order "u1" ocMixed dbW).2.products.find? (fun p => p.id == "pA") =
      some { prodA with stock := 3 } := by decide

/-! ### Claim C2 -/

/-- C2: under sequential placement from an empty order store, the
persisted order identifiers are exactly pad4 1, pad4 2, ... (so the first
is 0001 and each next one is the previous highest parsed as an integer
plus one, 4-digit zero-padded), and they are strictly increasing; stated
for runs that stay within the 4-digit regime the claim describes. -/
theorem order_ids_sequential (reqs : List (String × OrderCreate)) (db : DB)
    (h0 : db.orders = [])
    (h9 : reqs.countP (fun s => passes db.users s.1) ≤ 9999) :
    orderIds (runOrders reqs db) = seqIds (reqs.countP (fun s => passes db.users s.1)) ∧
    List.Pairwise (fun a b : String => a < b) (orderIds (runOrders reqs db)) := by
  have hids : orderIds db = seqIds 0 := by simp [orderIds, h0, seqIds]
  have hmain := runOrders_ids reqs db 0 hids (by omega)
  rw [Nat.zero_add] at hmain
  exact ⟨hmain, hmain ▸ seqIds_pairwise _ h9⟩

/-- C2 witness: a concrete two-order run from the empty store produces
identifiers 0001 and 0002. -/
theorem order_ids_sequential_witness :
    (orderIds (runOrders [("u1", ocGood), ("u1", ocGood)] dbW) =
      seqIds ([("u1", ocGood), ("u1", ocGood)].countP (fun s => passes dbW.users s.1)) ∧
    List.Pairwise (fun a b : String => a < b)
      (orderIds (runOrders [("u1", ocGood), ("u1", ocGood)] dbW))) ∧
    orderIds (runOrders [("u1", ocGood), ("u1", ocGood)] dbW) = ["0001", "0002"] :=
  ⟨order_ids_sequential [("u1", ocGood), ("u1", ocGood)] dbW rfl (by decide), by decide⟩

/-! ### Claim C6 -/

/-- C6 (amended): whenever both entry points accept, buy-now and
create_order produce the identical order (same identifier and record) and
the identical final database; they are not the identical algorithm on
rejection, where create_order persists the order and earlier decrements
while buy-now leaves the store untouched. -/
theorem buy_now_agrees_with_create_order_on_success (uid : String)
    (d : OrderCreate) (db : DB) (o o' : Order)
    (h1 : (create_order uid d db).1 = Except.ok o)
    (h2 : (create_buy_now_order uid d db).1 = Except.ok o') :
    o = o' ∧ (create_order uid d db).2 = (create_buy_now_order uid d db).2 := by
  rw [create_order] at h1 ⊢
  rw [create_buy_now_order] at h2 ⊢
  cases hf : db.users.find? (fun u => u.id == uid) with
  | none =>
    rw [hf] at h1
    simp at h1
  | some u =>
    rw [hf] at h1 h2
    dsimp only at h1 h2 ⊢
    cases ha : u.delivery_address with
    | none =>
      rw [ha] at h1
      simp at h1
    | some addr =>
      rw [ha] at h1 h2
      dsimp only at h1 h2 ⊢
      cases hv : validateStock d.products db.products with
      | some e =>
        rw [hv] at h2
        simp at h2
      | none =>
        rw [hv] at h2
        dsimp only at h2 ⊢
        obtain ⟨hn1, ho1⟩ := orderResult_ok.mp h1
        obtain ⟨hn2, ho2⟩ := orderResult_ok.mp h2
        refine ⟨ho1 ▸ ho2, ?_⟩
        have hres : reduceStock d.products
            { db with orders := db.orders ++ [buildOrder uid u.email addr d (nextOrderId db.orders)] }
            = (none, (reduceStock d.products
              { db with orders := db.orders ++ [buildOrder uid u.email addr d (nextOrderId db.orders)] }).2) :=
          Prod.ext hn1 rfl
        have hnc := reduceStockNoCheck_of_ok _ _ _ hres
        rw [orderResult_snd, orderResult_snd, hnc, hres]

/-- C6 witness: a store where the single line item is in stock; both entry
points accept and the equivalence theorem applies. -/
theorem buy_now_agrees_with_create_order_on_success_witness :
    (create_order "u1" ocGood dbW).1 =
        Except.ok (buildOrder "u1" "a@b.c" addrW ocGood "0001") ∧
    (create_buy_now_order "u1" ocGood dbW).1 =
        Except.ok (buildOrder "u1" "a@b.c" addrW ocGood "0001") ∧
    (buildOrder "u1" "a@b.c" addrW ocGood "0001" = buildOrder "u1" "a@b.c" addrW ocGood "0001" ∧
      (create_order "u1" ocGood dbW).2 = (create_buy_now_order "u1" ocGood dbW).2) :=
  ⟨by decide, by decide,
    buy_now_agrees_with_create_order_on_success "u1" ocGood dbW _ _ (by decide) (by decide)⟩

/-- C6 counterexample: on the same initial state both entry points reject
the same out-of-stock order, but create_order has persisted the order
record (and decremented the first line item) while buy-now left the store
untouched — the two entry points are not the identical algorithm. -/
theorem buy_now_create_order_divergence :
    (create_order "u1" ocMixed dbW).1 = Except.error (OrderError.insufficientStock "Beta") ∧
    (create_buy_now_order "u1" ocMixed dbW).1 = Except.error (OrderError.insufficientStock "Beta") ∧
    (create_order "u1" ocMixed dbW).2 ≠ (create_buy_now_order "u1" ocMixed dbW).2 ∧
    (create_order "u1" ocMixed dbW).2.orders.length = 1 ∧
    (create_buy_now_order "u1" ocMixed dbW).2.orders.length = 0 := by decide

/-! ### Claim C10 -/

/-- C10: the admin user-deletion endpoint applied to the admin's own user
id is rejected with CannotDeleteSelf and deletes nothing: the database is
returned unchanged. -/
theorem delete_user_self_rejected (adminId : String) (db : DB) :
    delete_user adminId adminId db = (Except.error DeleteError.cannotDeleteSelf, db) := by
  unfold delete_user
  rw [if_pos (by simp)]

/-! ### Claim C3 -/

/-- C3 (amended): the forgot-password verifier and the change-password
verifier fail with InvalidPurpose whenever the stored purpose tag does not
match the operation, even if the submitted code matches; the registration
verifier performs no purpose check at all (refuted separately by the
counterexample), so a code issued for another purpose can complete
registration verification. -/
theorem otp_purpose_mismatch_rejected :
    (∀ (now : Int) (email code : String) (db : DB) (u : UserRec),
      findUserByEmail db email = some u → u.otpPurpose ≠ some "reset" →
      forgot_password_verify now email code db =
        (Except.error VerifyError.invalidPurpose, db)) ∧
    (∀ (now : Int) (uid code : String) (db : DB) (u : UserRec),
      findUserById db uid = some u → u.otpPurpose ≠ some "change_password" →
      verify_change_password_otp now uid code db =
        (Except.error VerifyError.invalidPurpose, db)) := by
  constructor
  · intro now email code db u hf hp
    simp [forgot_password_verify, hf, hp]
  · intro now uid code db u hf hp
    simp [verify_change_password_otp, hf, hp]

/-- C3 witness: a stored user with no pending purpose tag is rejected by
both purpose-checking verifiers. -/
theorem otp_purpose_mismatch_rejected_witness :
    forgot_password_verify 0 "d@e.f" "123456" dbW =
      (Except.error VerifyError.invalidPurpose, dbW) ∧
    verify_change_password_otp 0 "u2" "123456" dbW =
      (Except.error VerifyError.invalidPurpose, dbW) :=
  ⟨otp_purpose_mismatch_rejected.1 0 "d@e.f" "123456" dbW userClean (by decide) (by decide),
   otp_purpose_mismatch_rejected.2 0 "u2" "123456" dbW userClean (by decide) (by decide)⟩

/-- C3 counterexample: userW holds an OTP tagged with purpose reset, yet
the registration verifier accepts the matching code — it never looks at
the purpose tag, so the claim fails for the registration verify
operation. -/
theorem registration_verify_ignores_purpose :
    (findUserByEmail dbW "a@b.c").map (fun u => u.otpPurpose) = some (some "reset") ∧
    (verify_otp 0 "a@b.c" "123456" dbW).1 = Except.ok () := by decide

/-! ### Cancel and admin status-update helper lemmas -/

theorem cancel_order_products (uid oid : String) (db : DB) :
    (cancel_order uid oid db).2.products = db.products := by
  unfold cancel_order
  cases hf : db.orders.find? (fun o => o.user_id == uid && o.id == oid) with
  | none => rfl
  | some o =>
    dsimp only
    by_cases hst : normCancelStatus o.status = "pending" ∨ normCancelStatus o.status = "confirmed"
    · rw [if_pos hst]
    · rw [if_neg hst]

theorem cancel_order_success (uid oid : String) (db : DB) (o : Order)
    (hf : db.orders.find? (fun q => q.user_id == uid && q.id == oid) = some o)
    (hst : normCancelStatus o.status = "pending" ∨ normCancelStatus o.status = "confirmed") :
    (cancel_order uid oid db).1 = Except.ok () ∧
    (cancel_order uid oid db).2.orders.find? (fun q => q.user_id == uid && q.id == oid) =
      some { o with status := "cancelled" } := by
  unfold cancel_order
  rw [hf]
  dsimp only
  rw [if_pos hst]
  refine ⟨rfl, ?_⟩
  have := find?_updateFirst (fun q : Order => q.user_id == uid && q.id == oid)
    (fun q => { q with status := "cancelled" }) db.orders (fun a ha => ha)
  rw [this, hf, Option.map_some']

theorem cancel_order_reject (uid oid : String) (db : DB) (o : Order)
    (hf : db.orders.find? (fun q => q.user_id == uid && q.id == oid) = some o)
    (hst : ¬ (normCancelStatus o.status = "pending" ∨ normCancelStatus o.status = "confirmed")) :
    cancel_order uid oid db = (Except.error StatusError.cannotCancel, db) := by
  unfold cancel_order
  rw [hf]
  dsimp only
  rw [if_neg hst]

theorem update_order_status_sets (oid st : String) (db : DB) (o : Order)
    (hvalid : validOrderStatuses.contains st = true)
    (hf : db.orders.find? (fun q => q.id == oid) = some o) :
    (update_order_status oid st db).1 = Except.ok () ∧
    (update_order_status oid st db).2.orders.find? (fun q => q.id == oid) =
      some { o with status := st } := by
  unfold update_order_status
  rw [if_pos hvalid,
    if_pos (show (db.orders.find? (fun q => q.id == oid)).isSome = true by rw [hf]; rfl)]
  refine ⟨rfl, ?_⟩
  have := find?_updateFirst (fun q : Order => q.id == oid)
    (fun q => { q with status := st }) db.orders (fun a ha => ha)
  rw [this, hf, Option.map_some']

/-! ### Claim C4 -/

/-- C4 (amended): the user cancel transition is legal exactly from
(normalized) status pending or confirmed — any other status is rejected —
and it sets the status to cancelled; the admin status-update endpoint,
however, enforces no transition order: it overwrites the current status
with any status from the valid list, so backward moves are possible
(refuted separately by the counterexample). -/
theorem order_status_transitions (uid oid : String) (db : DB) (o : Order)
    (hf : db.orders.find? (fun q => q.user_id == uid && q.id == oid) = some o) :
    ((normCancelStatus o.status = "pending" ∨ normCancelStatus o.status = "confirmed") →
      (cancel_order uid oid db).1 = Except.ok () ∧
      (cancel_order uid oid db).2.orders.find? (fun q => q.user_id == uid && q.id == oid) =
        some { o with status := "cancelled" }) ∧
    (¬ (normCancelStatus o.status = "pending" ∨ normCancelStatus o.status = "confirmed") →
      cancel_order uid oid db = (Except.error StatusError.cannotCancel, db)) ∧
    (∀ (st : String) (o' : Order), validOrderStatuses.contains st = true →
      db.orders.find? (fun q => q.id == oid) = some o' →
      (update_order_status oid st db).1 = Except.ok () ∧
      (update_order_status oid st db).2.orders.find? (fun q => q.id == oid) =
        some { o' with status := st }) :=
  ⟨fun hst => cancel_order_success uid oid db o hf hst,
   fun hst => cancel_order_reject uid oid db o hf hst,
   fun st o' hvalid hf' => update_order_status_sets oid st db o' hvalid hf'⟩

/-- C4 witness: cancelling the pending order 0002 succeeds and sets it to
cancelled; the admin endpoint moves the delivered order 0001 to shipped. -/
theorem order_status_transitions_witness :
    ((normCancelStatus orderPending.status = "pending" ∨
        normCancelStatus orderPending.status = "confirmed") →
      (cancel_order "u1" "0002" dbOrders).1 = Except.ok () ∧
      (cancel_order "u1" "0002" dbOrders).2.orders.find?
          (fun q => q.user_id == "u1" && q.id == "0002") =
        some { orderPending with status := "cancelled" }) ∧
    (¬ (normCancelStatus orderPending.status = "pending" ∨
        normCancelStatus orderPending.status = "confirmed") →
      cancel_order "u1" "0002" dbOrders = (Except.error StatusError.cannotCancel, dbOrders)) ∧
    (∀ (st : String) (o' : Order), validOrderStatuses.contains st = true →
      dbOrders.orders.find? (fun q => q.id == "0002") = some o' →
      (update_order_status "0002" st dbOrders).1 = Except.ok () ∧
      (update_order_status "0002" st dbOrders).2.orders.find? (fun q => q.id == "0002") =
        some { o' with status := st }) :=
  order_status_transitions "u1" "0002" dbOrders orderPending (by decide)

/-- C4 counterexample: order 0001 is delivered, yet the admin status
update moves it back to pending successfully — transitions applied by the
admin operation are not monotonic forward. -/
theorem admin_status_update_moves_backward :
    orderDelivered.status = "delivered" ∧
    (update_order_status "0001" "pending" dbOrders).1 = Except.ok () ∧
    (update_order_status "0001" "pending" dbOrders).2.orders.find?
        (fun q => q.id == "0001") = some { orderDelivered with status := "pending" } := by
  decide

/-! ### Claim C9 -/

/-- C9: cancelling an order whose (normalized) status is pending or
confirmed succeeds, sets its status to cancelled, and leaves the product
store — hence every product's stock — completely unchanged: cancellation
does not restock. -/
theorem cancel_order_does_not_restock (uid oid : String) (db : DB) (o : Order)
    (hf : db.orders.find? (fun q => q.user_id == uid && q.id == oid) = some o)
    (hst : normCancelStatus o.status = "pending" ∨ normCancelStatus o.status = "confirmed") :
    (cancel_order uid oid db).1 = Except.ok () ∧
    (cancel_order uid oid db).2.orders.find? (fun q => q.user_id == uid && q.id == oid) =
      some { o with status := "cancelled" } ∧
    (cancel_order uid oid db).2.products = db.products :=
  ⟨(cancel_order_success uid oid db o hf hst).1,
   (cancel_order_success uid oid db o hf hst).2,
   cancel_order_products uid oid db⟩

/-- C9 witness: the theorem applied to the pending order 0002 of the
concrete store, whose product list is returned unchanged. -/
theorem cancel_order_does_not_restock_witness :
    (cancel_order "u1" "0002" dbOrders).1 = Except.ok () ∧
    (cancel_order "u1" "0002" dbOrders).2.orders.find?
        (fun q => q.user_id == "u1" && q.id == "0002") =
      some { orderPending with status := "cancelled" } ∧
    (cancel_order "u1" "0002" dbOrders).2.products = dbOrders.products :=
  cancel_order_does_not_restock "u1" "0002" dbOrders orderPending (by decide) (by decide)

/-! ### Claim C8 -/

/-- C8: for a stored ticket owned by the requester, a closed status makes
the requester's reply fail with TicketClosed leaving the database (hence
the message list) unchanged, while an admin reply is appended through the
admin update endpoint regardless of the ticket's status. -/
theorem closed_ticket_message_policy (uid tid : String) (db : DB) (t : Ticket)
    (hf : db.tickets.find? (fun s => s.id == tid) = some t)
    (hu : t.user_id = some uid) :
    (t.status = "closed" → ∀ (reply : String) (now : Int),
      user_reply_to_ticket uid tid reply now db =
        (Except.error TicketError.ticketClosed, db)) ∧
    (∀ (r : String) (now : Int), r ≠ "" →
      (update_support_ticket tid { status := none, admin_reply := some r } now db).1 =
        Except.ok () ∧
      (update_support_ticket tid { status := none, admin_reply := some r } now db).2.tickets.find?
          (fun s => s.id == tid) =
        some { t with messages := t.messages ++
          [{ sender := "admin", message := r, timestamp := now }] }) := by
  have hpt := List.find?_some hf
  have hft : db.tickets.find? (fun s => s.id == tid && s.user_id == some uid) = some t := by
    refine find?_stronger hf ?_ ?_
    · simp only [Bool.and_eq_true]
      exact ⟨hpt, by rw [hu]; simp⟩
    · intro x hx
      simp only [Bool.and_eq_true] at hx
      exact hx.1
  constructor
  · intro hclosed reply now
    unfold user_reply_to_ticket
    rw [hft]
    simp [hclosed]
  · intro r now hr
    have htr : truthy (some r) = true := by simp [truthy, hr]
    unfold update_support_ticket
    rw [if_neg (by simp [truthy]), if_neg (by simp [truthy, hr]),
      if_neg (by rw [hf]; simp)]
    refine ⟨rfl, ?_⟩
    have hupd := find?_updateFirst (fun s : Ticket => s.id == tid)
      (fun t1 =>
        let t2 := if truthy (none : Option String) = true then
            { t1 with status := (none : Option String).getD "" } else t1
        if truthy (some r) = true then
          { t2 with messages := t2.messages ++
            [{ sender := "admin", message := (some r).getD "", timestamp := now }] }
        else t2)
      db.tickets ?_
    · rw [hupd, hf, Option.map_some']
      simp [truthy, hr]
    · intro a ha
      simp only [truthy, Bool.false_eq_true, if_false]
      split <;> exact ha

/-- C8 witness: the closed ticket t1 rejects a user reply and accepts an
admin reply, which is appended to its thread. -/
theorem closed_ticket_message_policy_witness :
    (ticketClosedW.status = "closed" →
      user_reply_to_ticket "u1" "t1" "ping" 5 dbTickets =
        (Except.error TicketError.ticketClosed, dbTickets)) ∧
    ((update_support_ticket "t1" { status := none, admin_reply := some "ok" } 5 dbTickets).1 =
        Except.ok () ∧
      (update_support_ticket "t1" { status := none, admin_reply := some "ok" } 5
            dbTickets).2.tickets.find? (fun s => s.id == "t1") =
        some { ticketClosedW with messages := ticketClosedW.messages ++
          [{ sender := "admin", message := "ok", timestamp := 5 }] }) :=
  ⟨fun h => (closed_ticket_message_policy "u1" "t1" dbTickets ticketClosedW
      (by decide) (by decide)).1 h "ping" 5,
   (closed_ticket_message_policy "u1" "t1" dbTickets ticketClosedW
      (by decide) (by decide)).2 "ok" 5 (by decide)⟩

/-! ### Rating helper lemmas -/

theorem ratingsFor_append_match (db : DB) (pid : String) (x : RatingRec)
    (hx : (x.product_id == pid) = true) :
    (db.ratings ++ [x]).filter (fun r => r.product_id == pid) =
      ratingsFor db pid ++ [x] := by
  rw [List.filter_append, ratingsFor]
  simp [hx]

theorem submit_rating_success (uid pid : String) (v : Nat) (db : DB)
    (hprod : (db.products.find? (fun p => p.id == pid)).isSome = true)
    (hdup : db.ratings.find? (fun r => r.user_id == uid && r.product_id == pid) = none) :
    (submit_product_rating uid pid v db).1 = Except.ok () ∧
    (submit_product_rating uid pid v db).2.ratings = db.ratings ++ [mkRating pid (uid, v)] ∧
    (submit_product_rating uid pid v db).2.products.find? (fun p => p.id == pid) =
      (db.products.find? (fun p => p.id == pid)).map
        (fun p => { p with
          average_rating := ratingAverage (ratingsFor db pid ++ [mkRating pid (uid, v)])
          total_ratings := (ratingsFor db pid ++ [mkRating pid (uid, v)]).length }) := by
  obtain ⟨p0, hp0⟩ := Option.isSome_iff_exists.mp hprod
  unfold submit_product_rating
  rw [if_neg (by rw [hp0]; simp), if_neg (by rw [hdup]; simp)]
  have hflt : ratingsFor
      { db with ratings := db.ratings ++ [{ user_id := uid, product_id := pid, rating := v }] }
      pid = ratingsFor db pid ++ [mkRating pid (uid, v)] := by
    unfold ratingsFor
    dsimp only
    exact ratingsFor_append_match db pid _ (by simp [mkRating])
  dsimp only
  rw [hflt]
  rw [if_neg (by simp)]
  refine ⟨rfl, rfl, ?_⟩
  have hupd := find?_updateFirst (fun p : Product => p.id == pid)
    (fun p => { p with
      average_rating := ratingAverage (ratingsFor db pid ++ [mkRating pid (uid, v)])
      total_ratings := (ratingsFor db pid ++ [mkRating pid (uid, v)]).length })
    db.products (fun a ha => ha)
  exact hupd

theorem submit_rating_duplicate (uid pid : String) (v : Nat) (db : DB)
    (hprod : (db.products.find? (fun p => p.id == pid)).isSome = true)
    (hdup : (db.ratings.find? (fun r => r.user_id == uid && r.product_id == pid)).isSome = true) :
    submit_product_rating uid pid v db = (Except.error RatingError.duplicateRating, db) := by
  obtain ⟨p0, hp0⟩ := Option.isSome_iff_exists.mp hprod
  unfold submit_product_rating
  rw [if_neg (by rw [hp0]; simp), if_pos hdup]

theorem runRatings_spec (pid : String) :
    ∀ (subs : List (String × Nat)) (db : DB),
    (db.products.find? (fun p => p.id == pid)).isSome = true →
    (∀ s ∈ subs, ∀ r ∈ ratingsFor db pid, r.user_id ≠ s.1) →
    (subs.map Prod.fst).Nodup →
    ratingsFor (runRatings pid subs db) pid = ratingsFor db pid ++ subs.map (mkRating pid) ∧
    ((runRatings pid subs db).products.find? (fun p => p.id == pid)).isSome = true ∧
    (subs ≠ [] →
      ∀ q, (runRatings pid subs db).products.find? (fun p => p.id == pid) = some q →
        q.average_rating = ratingAverage (ratingsFor (runRatings pid subs db) pid) ∧
        q.total_ratings = (ratingsFor (runRatings pid subs db) pid).length) := by
  intro subs
  induction subs with
  | nil =>
    intro db hprod hdisj hnodup
    exact ⟨by simp [runRatings], hprod, fun h => absurd rfl h⟩
  | cons s rest ih =>
    intro db hprod hdisj hnodup
    have hdup : db.ratings.find? (fun r => r.user_id == s.1 && r.product_id == pid) = none := by
      rw [List.find?_eq_none]
      intro x hx hpx
      simp only [Bool.and_eq_true, beq_iff_eq] at hpx
      exact hdisj s (List.mem_cons_self s rest) x
        (List.mem_filter.mpr ⟨hx, by simp [hpx.2]⟩) hpx.1
    obtain ⟨hok, hrat, hfind⟩ := submit_rating_success s.1 pid s.2 db hprod hdup
    obtain ⟨p0, hp0⟩ := Option.isSome_iff_exists.mp hprod
    rw [hp0, Option.map_some'] at hfind
    have hratFor : ratingsFor (submit_product_rating s.1 pid s.2 db).2 pid =
        ratingsFor db pid ++ [mkRating pid s] := by
      unfold ratingsFor
      rw [hrat]
      exact ratingsFor_append_match db pid _ (by simp [mkRating])
    have hprod' : ((submit_product_rating s.1 pid s.2 db).2.products.find?
        (fun p => p.id == pid)).isSome = true := by
      rw [hfind]
      rfl
    have hdisj' : ∀ s' ∈ rest, ∀ r ∈ ratingsFor (submit_product_rating s.1 pid s.2 db).2 pid,
        r.user_id ≠ s'.1 := by
      intro s' hs' r hr
      rw [hratFor] at hr
      rcases List.mem_append.mp hr with hold | hnew
      · exact hdisj s' (List.mem_cons_of_mem _ hs') r hold
      · have hrs : r = mkRating pid s := by simpa using hnew
        rw [hrs]
        intro heq
        have heq' : s.1 = s'.1 := heq
        have hhead : s.1 ∉ rest.map Prod.fst := by
          rw [List.map_cons] at hnodup
          exact (List.nodup_cons.mp hnodup).1
        exact hhead (by rw [heq']; exact List.mem_map_of_mem Prod.fst hs')
    have hnodup' : (rest.map Prod.fst).Nodup := by
      rw [List.map_cons] at hnodup
      exact (List.nodup_cons.mp hnodup).2
    obtain ⟨ih1, ih2, ih3⟩ := ih (submit_product_rating s.1 pid s.2 db).2 hprod' hdisj' hnodup'
    rw [runRatings]
    refine ⟨?_, ih2, ?_⟩
    · rw [ih1, hratFor]
      simp
    · intro _ q hq
      cases rest with
      | nil =>
        rw [runRatings] at hq ih1 ⊢
        rw [hfind] at hq
        obtain rfl : _ = q := Option.some.inj hq
        rw [ih1, hratFor]
        exact ⟨by simp, by simp⟩
      | cons s' rest' =>
        exact ih3 (by simp) q hq

/-! ### Claim C5 -/

/-- C5: starting from a product with no stored ratings, after N
submissions by N distinct users with values r1..rN the product's stored
average_rating equals the exact mean of r1..rN and total_ratings equals
N; a further submission by any of those users is rejected as a duplicate
and returns the database unchanged, so neither the average nor the count
moves. -/
theorem rating_aggregation_correct (pid : String) (subs : List (String × Nat)) (db : DB)
    (hprod : (db.products.find? (fun p => p.id == pid)).isSome = true)
    (hempty : ratingsFor db pid = [])
    (hnodup : (subs.map Prod.fst).Nodup)
    (hne : subs ≠ []) :
    (∀ q, (runRatings pid subs db).products.find? (fun p => p.id == pid) = some q →
      q.average_rating = ((subs.map (fun s => (s.2 : ℚ))).sum) / (subs.length : ℚ) ∧
      q.total_ratings = subs.length) ∧
    (∀ s ∈ subs, ∀ (v : Nat),
      submit_product_rating s.1 pid v (runRatings pid subs db) =
        (Except.error RatingError.duplicateRating, runRatings pid subs db)) := by
  have hdisj : ∀ s ∈ subs, ∀ r ∈ ratingsFor db pid, r.user_id ≠ s.1 := by
    intro s _ r hr
    rw [hempty] at hr
    exact absurd hr (List.not_mem_nil r)
  obtain ⟨h1, h2, h3⟩ := runRatings_spec pid subs db hprod hdisj hnodup
  rw [hempty, List.nil_append] at h1
  constructor
  · intro q hq
    obtain ⟨ha, hc⟩ := h3 hne q hq
    rw [h1] at ha hc
    refine ⟨?_, by rw [hc, List.length_map]⟩
    rw [ha, ratingAverage, List.map_map, List.length_map]
    rfl
  · intro s hs v
    apply submit_rating_duplicate
    · exact h2
    · have hmem : mkRating pid s ∈ ratingsFor (runRatings pid subs db) pid := by
        rw [h1]
        exact List.mem_map_of_mem _ hs
      have hmem' : mkRating pid s ∈ (runRatings pid subs db).ratings :=
        (List.mem_filter.mp hmem).1
      exact List.find?_isSome.mpr ⟨mkRating pid s, hmem', by simp [mkRating]⟩

/-- C5 witness: two users rate product pA with 5 and 4; the aggregation
theorem applies: the stored average is the mean of the two values, the
count is two, and a repeat attempt by either user is a rejected
duplicate. -/
theorem rating_aggregation_correct_witness :
    (∀ q, (runRatings "pA" [("u1", 5), ("u2", 4)] dbW).products.find?
          (fun p => p.id == "pA") = some q →
        q.average_rating =
          (([("u1", 5), ("u2", 4)].map (fun s => ((s.2 : Nat) : ℚ))).sum) /
            (([("u1", 5), ("u2", 4)] : List (String × Nat)).length : ℚ) ∧
        q.total_ratings = ([("u1", 5), ("u2", 4)] : List (String × Nat)).length) ∧
    (∀ s ∈ ([("u1", 5), ("u2", 4)] : List (String × Nat)), ∀ (v : Nat),
      submit_product_rating s.1 "pA" v (runRatings "pA" [("u1", 5), ("u2", 4)] dbW) =
        (Except.error RatingError.duplicateRating,
          runRatings "pA" [("u1", 5), ("u2", 4)] dbW)) :=
  rating_aggregation_correct "pA" [("u1", 5), ("u2", 4)] dbW (by decide) (by decide)
    (by decide) (by decide)

/-! ### verify_otp characterization -/

theorem ensureAware_instant (d : PyDateTime) : (ensureAware d).instant = d.instant := by
  unfold ensureAware
  split <;> rfl

theorem verify_otp_eq (now : Int) (email code : String) (db : DB)
    (u : UserRec) (c : String) (e : PyDateTime)
    (hf : findUserByEmail db email = some u)
    (hv : u.isVerified = false)
    (hc : u.otp = some c)
    (he : u.otpExpires = some e) :
    verify_otp now email code db =
      if code = c then
        (if e.instant < now then (Except.error VerifyError.expired, db)
         else (Except.ok (), updateUserByEmail db email
           (fun v => { v with isVerified := true, otp := none, otpExpires := none })))
      else (Except.error VerifyError.invalidOTP, db) := by
  unfold verify_otp
  simp only [hf, hv, hc, he, Bool.false_eq_true, if_false, ensureAware_instant, gt_iff_lt]
  by_cases hcode : code = c
  · rw [if_pos hcode, if_neg (by simp [hcode])]
  · rw [if_neg hcode, if_pos (by simp [hcode]; exact fun h => hcode h.symm)]

/-! ### Claim C7 -/

/-- C7: for a user with a pending registration OTP (unverified, with a
stored code and expiry), verification succeeds iff the submitted code is
string-equal to the stored code and the current time does not exceed the
expiry, where the expiry is normalized by treating a timezone-less value
as UTC (the normalization keeps the instant); a matching but timed-out
code fails with Expired; and success sets the verified flag and clears
the OTP code and expiry fields. -/
theorem verify_otp_registration_contract (now : Int) (email code : String) (db : DB)
    (u : UserRec) (c : String) (e : PyDateTime)
    (hf : findUserByEmail db email = some u)
    (hv : u.isVerified = false)
    (hc : u.otp = some c)
    (he : u.otpExpires = some e) :
    ((verify_otp now email code db).1 = Except.ok () ↔ (code = c ∧ now ≤ e.instant)) ∧
    (ensureAware e).instant = e.instant ∧
    (code = c → e.instant < now →
      (verify_otp now email code db).1 = Except.error VerifyError.expired) ∧
    (code = c → now ≤ e.instant →
      findUserByEmail (verify_otp now email code db).2 email =
        some { u with isVerified := true, otp := none, otpExpires := none }) := by
  have heq := verify_otp_eq now email code db u c e hf hv hc he
  refine ⟨?_, ensureAware_instant e, ?_, ?_⟩
  · rw [heq]
    by_cases hcode : code = c
    · rw [if_pos hcode]
      by_cases htime : e.instant < now
      · rw [if_pos htime]
        constructor
        · intro h
          exact absurd h (by simp)
        · intro h
          omega
      · rw [if_neg htime]
        exact ⟨fun _ => ⟨hcode, by omega⟩, fun _ => rfl⟩
    · rw [if_neg hcode]
      constructor
      · intro h
        exact absurd h (by simp)
      · intro h
        exact absurd h.1 hcode
  · intro hcode htime
    rw [heq, if_pos hcode, if_pos htime]
  · intro hcode htime
    rw [heq, if_pos hcode, if_neg (by omega)]
    have hupd := find?_updateFirst (fun v : UserRec => v.email == email)
      (fun v => { v with isVerified := true, otp := none, otpExpires := none })
      db.users (fun a ha => ha)
    show (updateFirst (fun v : UserRec => v.email == email) _ db.users).find? _ = _
    rw [hupd]
    rw [show db.users.find? (fun v => v.email == email) = some u from hf, Option.map_some']

/-- C7 witness: the contract applied to userW, whose code 123456 expires
at instant 100 stored without timezone: the correct code at time 0
succeeds, and at time 101 it is expired. -/
theorem verify_otp_registration_contract_witness :
    (((verify_otp 0 "a@b.c" "123456" dbW).1 = Except.ok () ↔
        ("123456" = "123456" ∧ (0 : Int) ≤ (100 : Int))) ∧
      (ensureAware { instant := 100, aware := false }).instant = (100 : Int) ∧
      ("123456" = "123456" → (100 : Int) < 0 →
        (verify_otp 0 "a@b.c" "123456" dbW).1 = Except.error VerifyError.expired) ∧
      ("123456" = "123456" → (0 : Int) ≤ (100 : Int) →
        findUserByEmail (verify_otp 0 "a@b.c" "123456" dbW).2 "a@b.c" =
          some { userW with isVerified := true, otp := none, otpExpires := none })) ∧
    (verify_otp 101 "a@b.c" "123456" dbW).1 = Except.error VerifyError.expired :=
  ⟨verify_otp_registration_contract 0 "a@b.c" "123456" dbW userW "123456"
      { instant := 100, aware := false } (by decide) (by decide) (by decide) (by decide),
   (verify_otp_registration_contract 101 "a@b.c" "123456" dbW userW "123456"
      { instant := 100, aware := false } (by decide) (by decide) (by decide)
      (by decide)).2.2.1 rfl (by decide)⟩

end Shop
